import Mathlib

/-!
Shallow embedding of the BMI calculator component (`bmi-calculator` client
component). JavaScript numbers are modelled as exact rationals extended with
NaN and the two signed infinities (`JsNum`); `Number.parseFloat` is modelled
after the ECMAScript `parseFloat` grammar (leading whitespace skip, optional
sign, `Infinity` literal, decimal digits with optional fraction and exponent,
longest-prefix semantics, trailing garbage ignored), with finite values kept
as exact rationals. The component's reactive state is modelled as an explicit
record, and the two event handlers (`handleInputChange`, `calculateBMI`) as
state transformers; `Number.prototype.toFixed(1)` followed by `parseFloat` is
modelled as exact rounding to the nearest tenth with ties to the larger
value, which is the ECMAScript `toFixed` tie rule. The transient
`animateResult` highlight flag is purely cosmetic timing behaviour and is
omitted from the state.
-/

namespace BmiCalc

attribute [local semireducible] Rat.mul Rat.add Rat.sub Rat.inv Rat.ofScientific

/-- JavaScript number values relevant to this program: NaN, the two signed
infinities, and finite values modelled as exact rationals. -/
inductive JsNum where
  | nan
  | posInf
  | negInf
  | num (q : ℚ)
deriving DecidableEq

namespace JsNum

/-- `isNaN(x)`. -/
def isNaN : JsNum → Bool
  | nan => true
  | _ => false

/-- `isFinite(x)`. -/
def isFinite : JsNum → Bool
  | num _ => true
  | _ => false

/-- JS comparison `x <= q` against a finite constant; false whenever `x` is NaN. -/
def leQ : JsNum → ℚ → Bool
  | nan, _ => false
  | posInf, _ => false
  | negInf, _ => true
  | num x, q => decide (x ≤ q)

/-- JS comparison `x < q` against a finite constant; false whenever `x` is NaN. -/
def ltQ : JsNum → ℚ → Bool
  | nan, _ => false
  | posInf, _ => false
  | negInf, _ => true
  | num x, q => decide (x < q)

/-- JS comparison `x > q` against a finite constant; false whenever `x` is NaN. -/
def gtQ : JsNum → ℚ → Bool
  | nan, _ => false
  | posInf, _ => true
  | negInf, _ => false
  | num x, q => decide (q < x)

/-- Division by the positive constant 100 (the cm → m conversion). -/
def div100 : JsNum → JsNum
  | nan => nan
  | posInf => posInf
  | negInf => negInf
  | num x => num (x / 100)

/-- JS multiplication. `Infinity * 0` is NaN; otherwise infinities follow sign
rules. (Negative zero is not distinguished from zero.) -/
def mul : JsNum → JsNum → JsNum
  | nan, _ => nan
  | _, nan => nan
  | posInf, posInf => posInf
  | posInf, negInf => negInf
  | negInf, posInf => negInf
  | negInf, negInf => posInf
  | posInf, num y => if 0 < y then posInf else if y < 0 then negInf else nan
  | negInf, num y => if 0 < y then negInf else if y < 0 then posInf else nan
  | num x, posInf => if 0 < x then posInf else if x < 0 then negInf else nan
  | num x, negInf => if 0 < x then negInf else if x < 0 then posInf else nan
  | num x, num y => num (x * y)

/-- JS division. `Infinity / Infinity` and `0 / 0` are NaN, a nonzero finite
value divided by zero is a signed infinity, a finite value divided by an
infinity is zero. (Negative zero is not distinguished from zero.) -/
def div : JsNum → JsNum → JsNum
  | nan, _ => nan
  | _, nan => nan
  | posInf, posInf => nan
  | posInf, negInf => nan
  | negInf, posInf => nan
  | negInf, negInf => nan
  | posInf, num y => if y < 0 then negInf else posInf
  | negInf, num y => if y < 0 then posInf else negInf
  | num _, posInf => num 0
  | num _, negInf => num 0
  | num x, num y =>
      if y = 0 then (if x = 0 then nan else if 0 < x then posInf else negInf)
      else num (x / y)

/-- The rational carried by a finite value (0 for NaN and infinities; only
used under the `isFinite` guard). -/
def toQ : JsNum → ℚ
  | num q => q
  | _ => 0

end JsNum

/-- The ECMAScript whitespace and line-terminator characters that both
`String.prototype.trim` and `parseFloat` skip. -/
def jsWhitespace (c : Char) : Bool :=
  c = ' ' || c = '\t' || c = '\n' || c = '\r' || c = '\x0b' || c = '\x0c' ||
    c = '\u00A0' || c = '\u2028' || c = '\u2029' || c = '\uFEFF'

/-- ASCII decimal digit test. -/
def isDigit (c : Char) : Bool :=
  '0' ≤ c && c ≤ '9'

/-- Value of a digit string, most significant first. -/
def digitsVal (ds : List Char) : ℕ :=
  ds.foldl (fun a c => 10 * a + (c.toNat - 48)) 0

/-- Value of a well-formed exponent digit run (with its sign already split
off); 0 when there is no digit, in which case the exponent is not part of the
longest valid prefix. -/
def expDigits (cs : List Char) (sign : ℤ) : ℤ :=
  let ds := cs.takeWhile isDigit
  if ds.isEmpty then 0 else sign * (digitsVal ds : ℤ)

/-- Exponent value after the `e`/`E` marker: optional sign then digits. -/
def expTail : List Char → ℤ
  | '+' :: rest => expDigits rest 1
  | '-' :: rest => expDigits rest (-1)
  | rest => expDigits rest 1

/-- Exponent value contributed by the remainder of the input: 0 unless it
starts with a complete `ExponentPart`. -/
def expVal : List Char → ℤ
  | 'e' :: rest => expTail rest
  | 'E' :: rest => expTail rest
  | _ => 0

/-- Mathematical value of the longest `StrUnsignedDecimalLiteral` (digits,
optional fraction, optional exponent) prefix of the input; `none` when no
prefix is a valid literal. -/
def parseDecQ (cs : List Char) : Option ℚ :=
  let ip := cs.takeWhile isDigit
  let rest := cs.dropWhile isDigit
  match rest with
  | '.' :: rest2 =>
      let fp := rest2.takeWhile isDigit
      if ip.isEmpty && fp.isEmpty then none
      else
        some (((digitsVal ip : ℚ) + (digitsVal fp : ℚ) / (10 : ℚ) ^ fp.length) *
          (10 : ℚ) ^ expVal (rest2.dropWhile isDigit))
  | _ =>
      if ip.isEmpty then none
      else some ((digitsVal ip : ℚ) * (10 : ℚ) ^ expVal rest)

/-- Prefix test on character lists. -/
def startsWith : List Char → List Char → Bool
  | [], _ => true
  | _ :: _, [] => false
  | p :: ps, c :: cs => p = c && startsWith ps cs

/-- The literal `Infinity`. -/
def infinityChars : List Char :=
  ['I', 'n', 'f', 'i', 'n', 'i', 't', 'y']

/-- Parse the part of a `StrDecimalLiteral` after the optional sign: either
the `Infinity` literal or an unsigned decimal literal. -/
def parseSigned (cs : List Char) (neg : Bool) : JsNum :=
  if startsWith infinityChars cs then (if neg then .negInf else .posInf)
  else
    match parseDecQ cs with
    | none => .nan
    | some q => .num (if neg then -q else q)

/-- `Number.parseFloat`: skip leading whitespace, optional sign, then the
longest valid decimal literal (or `Infinity`); NaN when none exists. -/
def parseFloat (s : String) : JsNum :=
  match s.data.dropWhile jsWhitespace with
  | '+' :: rest => parseSigned rest false
  | '-' :: rest => parseSigned rest true
  | cs => parseSigned cs false

/-- `value.trim()` is the empty string exactly when every character is
whitespace; this embeds the `!value.trim()` test. -/
def trimmedEmpty (s : String) : Bool :=
  s.data.all jsWhitespace

/-- The two input fields. -/
inductive Field where
  | height
  | weight
deriving DecidableEq

/-- Lower-case field name, as interpolated into the "valid" message. -/
def fieldName : Field → String
  | .height => "height"
  | .weight => "weight"

/-- Capitalised field name (`field.charAt(0).toUpperCase() + field.slice(1)`),
as interpolated into the "required" message. -/
def fieldCap : Field → String
  | .height => "Height"
  | .weight => "Weight"

/-- `validateField`: the per-field validator. The source computes
`numValue = Number.parseFloat(value)` up front, then checks the trimmed
string, then `isNaN(numValue) || numValue <= 0`, then the field-specific
bounds. -/
def validateField (field : Field) (value : String) : Option String :=
  let numValue := parseFloat value
  if trimmedEmpty value then
    some (fieldCap field ++ " is required")
  else if numValue.isNaN || numValue.leQ 0 then
    some ("Please enter a valid " ++ fieldName field)
  else
    match field with
    | .height =>
        if numValue.ltQ 50 then some "Height seems too low (min 50cm)"
        else if numValue.gtQ 250 then some "Height seems too high (max 250cm)"
        else none
    | .weight =>
        if numValue.ltQ 20 then some "Weight seems too low (min 20kg)"
        else if numValue.gtQ 500 then some "Weight seems too high (max 500kg)"
        else none

/-- The component's error record (`errors` state): a message per field and a
general, non-field-specific one. -/
structure ErrorState where
  height : Option String
  weight : Option String
  general : Option String
deriving DecidableEq

/-- The component's reactive state: the two raw text fields, the stored BMI
and category of the last successful computation, the error record, and the
`submitted` flag. The transient `animateResult` flag is cosmetic timing
behaviour and is omitted. -/
structure CalcState where
  height : String
  weight : String
  bmi : Option ℚ
  category : String
  errors : ErrorState
  submitted : Bool
deriving DecidableEq

/-- The `useState` initial values. -/
def initialState : CalcState :=
  { height := "", weight := "", bmi := none, category := "",
    errors := { height := none, weight := none, general := none },
    submitted := false }

/-- `setHeight` / `setWeight`: store the raw text of one field. -/
def setFieldText (s : CalcState) : Field → String → CalcState
  | .height, v => { s with height := v }
  | .weight, v => { s with weight := v }

/-- `setErrors((prev) => ({ ...prev, [field]: error }))`: update one field's
error, keeping the rest of the record. -/
def setFieldError (e : ErrorState) : Field → Option String → ErrorState
  | .height, err => { e with height := err }
  | .weight, err => { e with weight := err }

/-- `handleInputChange`: store the new raw text; if the form has been
submitted before, also re-run that field's validator and store its error. -/
def handleInputChange (s : CalcState) (field : Field) (value : String) : CalcState :=
  let s1 := setFieldText s field value
  if s1.submitted then
    { s1 with errors := setFieldError s1.errors field (validateField field value) }
  else s1

/-- The score computed by `calculateBMI` from the two parsed values:
`heightInMeters = heightValue / 100`, then
`weightValue / (heightInMeters * heightInMeters)`. -/
def computeScore (heightValue weightValue : JsNum) : JsNum :=
  let heightInMeters := heightValue.div100
  weightValue.div (heightInMeters.mul heightInMeters)

/-- `Number.parseFloat(x.toFixed(1))` for a finite value `x`, modelled
exactly: the nearest multiple of 1/10, ties resolved to the larger value
(the ECMAScript `toFixed` tie rule). -/
def roundTo1 (q : ℚ) : ℚ :=
  ((⌊q * 10 + 1 / 2⌋ : ℤ) : ℚ) / 10

/-- The four classification bands of the spec. -/
inductive Band where
  | Underweight
  | Normal
  | Overweight
  | Obese
deriving DecidableEq

/-- The classification branch `calculateBMI` takes, as a function of the
unrounded score: the same strict-upper-bound chain as the source. -/
def bandOf (q : ℚ) : Band :=
  if q < 18.5 then .Underweight
  else if q < 25 then .Normal
  else if q < 30 then .Overweight
  else .Obese

/-- The string the source passes to `setCategory` in each branch. -/
def bandLabel : Band → String
  | .Underweight => "Underweight"
  | .Normal => "Normal weight"
  | .Overweight => "Overweight"
  | .Obese => "Obese"

/-- The `setCategory` chain of `calculateBMI`, on the JS score value. -/
def categoryFor (bmiValue : JsNum) : String :=
  if bmiValue.ltQ 18.5 then "Underweight"
  else if bmiValue.ltQ 25 then "Normal weight"
  else if bmiValue.ltQ 30 then "Overweight"
  else "Obese"

/-- `calculateBMI`: the submit handler. Marks the form submitted, validates
both fields, replaces the error record (explicitly clearing the general
error), and stops there when a field error exists; otherwise computes the
score, guards against a non-finite result (the `throw`/`catch` sets the
general error and leaves the previous result in place), and on success
stores the rounded score and the category of the unrounded score. -/
def calculateBMI (s : CalcState) : CalcState :=
  let s1 := { s with submitted := true }
  let heightError := validateField .height s1.height
  let weightError := validateField .weight s1.weight
  let s2 := { s1 with errors := { height := heightError, weight := weightError, general := none } }
  if heightError.isSome || weightError.isSome then s2
  else
    let heightValue := parseFloat s2.height
    let weightValue := parseFloat s2.weight
    let bmiValue := computeScore heightValue weightValue
    if !bmiValue.isFinite || bmiValue.isNaN then
      { s2 with errors := { s2.errors with
          general := some "An error occurred during calculation. Please check your inputs." } }
    else
      { s2 with bmi := some (roundTo1 bmiValue.toQ), category := categoryFor bmiValue }

/-- `getBmiScalePosition`: 0 without a result, otherwise the stored BMI
clamped to [10, 40] and mapped to a percentage. -/
def getBmiScalePosition (bmi : Option ℚ) : ℚ :=
  match bmi with
  | none => 0
  | some b => (max 10 (min b 40) - 10) / 30 * 100

/-- The user-driven events: editing one field or submitting the form. -/
inductive Event where
  | edit (field : Field) (value : String)
  | submit
deriving DecidableEq

/-- One event handled from a given state. -/
def step (s : CalcState) : Event → CalcState
  | .edit f v => handleInputChange s f v
  | .submit => calculateBMI s

/-- The state after a sequence of events from the initial state. -/
def runEvents (es : List Event) : CalcState :=
  es.foldl step initialState

/-- Both fields pass validation in the given state. -/
def bothValid (s : CalcState) : Bool :=
  (validateField .height s.height).isNone && (validateField .weight s.weight).isNone

/-- Some event of the list, run from the given state, is a submission with
both fields valid. -/
def successDuring : CalcState → List Event → Bool
  | _, [] => false
  | s, e :: es =>
      ((match e with
        | .submit => bothValid s
        | .edit _ _ => false) : Bool) || successDuring (step s e) es

/-- A successful validation+computation occurs somewhere in the event list
run from the initial state. -/
def hadSuccess (es : List Event) : Bool :=
  successDuring initialState es

/-- The states the component can reach from creation. -/
inductive Reachable : CalcState → Prop where
  | init : Reachable initialState
  | edit (f : Field) (v : String) {s : CalcState} : Reachable s → Reachable (handleInputChange s f v)
  | submit {s : CalcState} : Reachable s → Reachable (calculateBMI s)

/-- Round-half-away-from-zero at the tenths digit. -/
def roundHalfAway1 (q : ℚ) : ℚ :=
  if 0 ≤ q then ((⌊q * 10 + 1 / 2⌋ : ℤ) : ℚ) / 10
  else -(((⌊-q * 10 + 1 / 2⌋ : ℤ) : ℚ) / 10)

/-- The lower end of each field's valid range. -/
def lowBound : Field → ℚ
  | .height => 50
  | .weight => 20

/-- The upper end of each field's valid range. -/
def highBound : Field → ℚ
  | .height => 250
  | .weight => 500

/-- Each field's low-bound message. -/
def lowMsg : Field → String
  | .height => "Height seems too low (min 50cm)"
  | .weight => "Weight seems too low (min 20kg)"

/-- Each field's high-bound message. -/
def highMsg : Field → String
  | .height => "Height seems too high (max 250cm)"
  | .weight => "Weight seems too high (max 500kg)"

section Scratch

example : parseFloat "170" = .num 170 := by decide
example : parseFloat "71.825" = .num (71825 / 1000) := by decide
example : parseFloat "" = .nan := by decide
example : parseFloat "  -5e1abc" = .num (-50) := by decide
example : parseFloat "Infinity" = .posInf := by decide
example : parseFloat "-Infinity" = .negInf := by decide
example : parseFloat "0x10" = .num 0 := by decide
example : parseFloat "." = .nan := by decide
example : parseFloat "5." = .num 5 := by decide
example : parseFloat ".5e1" = .num 5 := by decide
example : validateField .height "170" = none := by decide
example : validateField .height "  " = some "Height is required" := by decide
example : validateField .weight "abc" = some "Please enter a valid weight" := by decide
example : validateField .height "-5" = some "Please enter a valid height" := by decide
example : validateField .height "Infinity" = some "Height seems too high (max 250cm)" := by decide
example : validateField .weight "12" = some "Weight seems too low (min 20kg)" := by decide

example :
    (calculateBMI { initialState with height := "170", weight := "70" }).bmi
      = some (121 / 5) := by decide

example :
    (calculateBMI { initialState with height := "170", weight := "70" }).category
      = "Normal weight" := by decide

example :
    (calculateBMI { initialState with height := "170", weight := "71.825" }).bmi
      = some (249 / 10) := by decide

example :
    (calculateBMI { initialState with height := "170", weight := "71.825" }).category
      = "Normal weight" := by decide

example :
    runEvents [.edit .height "170", .edit .weight "70", .submit, .edit .weight "-5", .submit] =
      { height := "170", weight := "-5", bmi := some (121 / 5), category := "Normal weight",
        errors := { height := none, weight := some "Please enter a valid weight", general := none },
        submitted := true } := by decide

example : getBmiScalePosition (some 25) = 50 := by decide

end Scratch

/-! ### Helper lemmas -/

theorem parseFloat_of_trimmedEmpty {t : String} (h : trimmedEmpty t = true) :
    parseFloat t = .nan := by
  have hd : t.data.dropWhile jsWhitespace = [] := by
    rw [List.dropWhile_eq_nil_iff]
    intro x hx
    exact List.all_eq_true.mp h x hx
  unfold parseFloat
  rw [hd]
  rfl

theorem trimmedEmpty_false_of_num {t : String} {q : ℚ} (h : parseFloat t = .num q) :
    trimmedEmpty t = false := by
  cases hb : trimmedEmpty t
  · rfl
  · rw [parseFloat_of_trimmedEmpty hb] at h
    cases h

/-- Closed form of the height validator over the parse result. -/
theorem validateField_height_char (t : String) :
    validateField .height t =
      if trimmedEmpty t then some "Height is required"
      else
        match parseFloat t with
        | .nan => some "Please enter a valid height"
        | .negInf => some "Please enter a valid height"
        | .posInf => some "Height seems too high (max 250cm)"
        | .num q =>
            if q ≤ 0 then some "Please enter a valid height"
            else if q < 50 then some "Height seems too low (min 50cm)"
            else if 250 < q then some "Height seems too high (max 250cm)"
            else none := by
  simp only [validateField, fieldCap, fieldName]
  cases hb : trimmedEmpty t
  · simp only [Bool.false_eq_true, if_false]
    cases hp : parseFloat t <;>
      simp [JsNum.isNaN, JsNum.leQ, JsNum.ltQ, JsNum.gtQ]
  · simp

/-- Closed form of the weight validator over the parse result. -/
theorem validateField_weight_char (t : String) :
    validateField .weight t =
      if trimmedEmpty t then some "Weight is required"
      else
        match parseFloat t with
        | .nan => some "Please enter a valid weight"
        | .negInf => some "Please enter a valid weight"
        | .posInf => some "Weight seems too high (max 500kg)"
        | .num q =>
            if q ≤ 0 then some "Please enter a valid weight"
            else if q < 20 then some "Weight seems too low (min 20kg)"
            else if 500 < q then some "Weight seems too high (max 500kg)"
            else none := by
  simp only [validateField, fieldCap, fieldName]
  cases hb : trimmedEmpty t
  · simp only [Bool.false_eq_true, if_false]
    cases hp : parseFloat t <;>
      simp [JsNum.isNaN, JsNum.leQ, JsNum.ltQ, JsNum.gtQ]
  · simp

/-- The height validator accepts exactly the inputs parsing to a finite value
in [50, 250]. -/
theorem validateField_height_none {t : String} :
    validateField .height t = none ↔ ∃ q : ℚ, parseFloat t = .num q ∧ 50 ≤ q ∧ q ≤ 250 := by
  rw [validateField_height_char]
  cases hb : trimmedEmpty t
  · simp only [Bool.false_eq_true, if_false]
    cases hp : parseFloat t with
    | nan => simp
    | posInf => simp
    | negInf => simp
    | num q =>
        dsimp only
        constructor
        · intro h
          split_ifs at h with h1 h2 h3
          · exact ⟨q, rfl, by linarith, by linarith⟩
        · rintro ⟨q', hq', hlo, hhi⟩
          obtain rfl : q = q' := by cases hq'; rfl
          rw [if_neg (by linarith), if_neg (by linarith), if_neg (by linarith)]
  · have hp := parseFloat_of_trimmedEmpty hb
    simp [hp]

/-- The weight validator accepts exactly the inputs parsing to a finite value
in [20, 500]. -/
theorem validateField_weight_none {t : String} :
    validateField .weight t = none ↔ ∃ q : ℚ, parseFloat t = .num q ∧ 20 ≤ q ∧ q ≤ 500 := by
  rw [validateField_weight_char]
  cases hb : trimmedEmpty t
  · simp only [Bool.false_eq_true, if_false]
    cases hp : parseFloat t with
    | nan => simp
    | posInf => simp
    | negInf => simp
    | num q =>
        dsimp only
        constructor
        · intro h
          split_ifs at h with h1 h2 h3
          · exact ⟨q, rfl, by linarith, by linarith⟩
        · rintro ⟨q', hq', hlo, hhi⟩
          obtain rfl : q = q' := by cases hq'; rfl
          rw [if_neg (by linarith), if_neg (by linarith), if_neg (by linarith)]
  · have hp := parseFloat_of_trimmedEmpty hb
    simp [hp]

theorem computeScore_num {h w : ℚ} (hh : h ≠ 0) :
    computeScore (.num h) (.num w) = .num (w / (h / 100 * (h / 100))) := by
  have hm : h / 100 * (h / 100) ≠ 0 :=
    mul_ne_zero (div_ne_zero hh (by norm_num)) (div_ne_zero hh (by norm_num))
  simp only [computeScore, JsNum.div100, JsNum.mul, JsNum.div, if_neg hm]

/-- A submission with a field error only marks the form submitted and stores
the two field errors (general cleared); everything else is untouched. -/
theorem calculateBMI_invalid {s : CalcState}
    (hv : ((validateField .height s.height).isSome ||
      (validateField .weight s.weight).isSome) = true) :
    calculateBMI s =
      { s with submitted := true,
               errors := { height := validateField .height s.height,
                           weight := validateField .weight s.weight,
                           general := none } } := by
  simp only [calculateBMI, hv, if_true]

/-- A submission with both fields parsing to in-range finite values stores
the rounded score and the category of the unrounded score, and clears all
errors. -/
theorem calculateBMI_valid {s : CalcState} {h w : ℚ}
    (hph : parseFloat s.height = .num h) (hpw : parseFloat s.weight = .num w)
    (h1 : 50 ≤ h) (h2 : h ≤ 250) (h3 : 20 ≤ w) (h4 : w ≤ 500) :
    calculateBMI s =
      { s with submitted := true,
               errors := { height := none, weight := none, general := none },
               bmi := some (roundTo1 (w / (h / 100 * (h / 100)))),
               category := categoryFor (.num (w / (h / 100 * (h / 100)))) } := by
  have hvh : validateField .height s.height = none :=
    validateField_height_none.mpr ⟨h, hph, h1, h2⟩
  have hvw : validateField .weight s.weight = none :=
    validateField_weight_none.mpr ⟨w, hpw, h3, h4⟩
  have hcs : computeScore (parseFloat s.height) (parseFloat s.weight)
      = .num (w / (h / 100 * (h / 100))) := by
    rw [hph, hpw]
    exact computeScore_num (by linarith)
  simp only [calculateBMI, hvh, hvw, Option.isSome_none, Bool.or_self, Bool.false_eq_true,
    if_false, hcs, JsNum.isFinite, Bool.not_true, JsNum.isNaN, Bool.or_self, Bool.false_eq_true,
    JsNum.toQ]

/-- Every submission either leaves the result (score and category) unchanged
or stores the rounded score and the category of the unrounded finite score. -/
theorem calculateBMI_cases (s : CalcState) :
    ((calculateBMI s).bmi = s.bmi ∧ (calculateBMI s).category = s.category) ∨
    ∃ q : ℚ, computeScore (parseFloat s.height) (parseFloat s.weight) = .num q ∧
      (calculateBMI s).bmi = some (roundTo1 q) ∧
      (calculateBMI s).category = categoryFor (.num q) := by
  by_cases hv : ((validateField .height s.height).isSome ||
      (validateField .weight s.weight).isSome) = true
  · left
    rw [calculateBMI_invalid hv]
    exact ⟨rfl, rfl⟩
  · have hh : validateField .height s.height = none := by
      cases hox : validateField .height s.height with
      | none => rfl
      | some v => rw [hox] at hv; simp at hv
    have hw : validateField .weight s.weight = none := by
      cases hox : validateField .weight s.weight with
      | none => rfl
      | some v => rw [hox] at hv; simp at hv
    obtain ⟨h, hph, h1, h2⟩ := validateField_height_none.mp hh
    obtain ⟨w, hpw, h3, h4⟩ := validateField_weight_none.mp hw
    right
    refine ⟨w / (h / 100 * (h / 100)), ?_, ?_, ?_⟩
    · rw [hph, hpw]
      exact computeScore_num (by linarith)
    · rw [calculateBMI_valid hph hpw h1 h2 h3 h4]
    · rw [calculateBMI_valid hph hpw h1 h2 h3 h4]

theorem calculateBMI_submitted (s : CalcState) : (calculateBMI s).submitted = true := by
  simp only [calculateBMI]
  split
  · rfl
  · split
    · rfl
    · rfl

theorem setFieldText_parts (s : CalcState) (f : Field) (v : String) :
    (setFieldText s f v).bmi = s.bmi ∧ (setFieldText s f v).category = s.category ∧
    (setFieldText s f v).errors = s.errors ∧ (setFieldText s f v).submitted = s.submitted := by
  cases f <;> exact ⟨rfl, rfl, rfl, rfl⟩

/-- While the form has not been submitted, an edit stores the raw text and
does nothing else. -/
theorem handleInputChange_of_not_submitted {s : CalcState} (f : Field) (v : String)
    (hs : s.submitted = false) :
    handleInputChange s f v = setFieldText s f v := by
  cases f <;> simp [handleInputChange, setFieldText, hs]

/-- After the form has been submitted once, an edit stores the raw text and
the re-run validator's result for that field. -/
theorem handleInputChange_of_submitted {s : CalcState} (f : Field) (v : String)
    (hs : s.submitted = true) :
    handleInputChange s f v =
      { setFieldText s f v with errors := setFieldError s.errors f (validateField f v) } := by
  cases f <;> simp [handleInputChange, setFieldText, setFieldError, hs]

theorem handleInputChange_parts (s : CalcState) (f : Field) (v : String) :
    (handleInputChange s f v).bmi = s.bmi ∧ (handleInputChange s f v).category = s.category ∧
    (handleInputChange s f v).submitted = s.submitted := by
  cases hs : s.submitted
  · rw [handleInputChange_of_not_submitted f v hs]
    obtain ⟨a, b, _, c⟩ := setFieldText_parts s f v
    exact ⟨a, b, c.trans hs⟩
  · rw [handleInputChange_of_submitted f v hs]
    obtain ⟨a, b, _, c⟩ := setFieldText_parts s f v
    exact ⟨a, b, c.trans hs⟩

/-- The category string stored for a finite score is the label of its band. -/
theorem categoryFor_eq_bandLabel (q : ℚ) : categoryFor (.num q) = bandLabel (bandOf q) := by
  simp only [categoryFor, bandOf, JsNum.ltQ, decide_eq_true_eq]
  split_ifs <;> rfl

/-- The four bands partition the score line along the source's thresholds. -/
theorem bandOf_iff (q : ℚ) :
    (bandOf q = .Underweight ↔ q < 18.5) ∧
    (bandOf q = .Normal ↔ 18.5 ≤ q ∧ q < 25) ∧
    (bandOf q = .Overweight ↔ 25 ≤ q ∧ q < 30) ∧
    (bandOf q = .Obese ↔ 30 ≤ q) := by
  unfold bandOf
  split_ifs with h1 h2 h3 <;>
    refine ⟨⟨fun hx => ?_, fun hx => ?_⟩, ⟨fun hx => ?_, fun hx => ?_⟩,
      ⟨fun hx => ?_, fun hx => ?_⟩, ⟨fun hx => ?_, fun hx => ?_⟩⟩ <;>
    first
      | rfl
      | linarith
      | (exact absurd hx (by decide))
      | (exact ⟨by linarith, by linarith⟩)

theorem bothValid_eq (s : CalcState) :
    bothValid s =
      !((validateField .height s.height).isSome || (validateField .weight s.weight).isSome) := by
  unfold bothValid
  cases validateField .height s.height <;> cases validateField .weight s.weight <;> rfl

/-- One step changes `bmi` from absent to present exactly on a submission
with both fields valid. -/
theorem step_bmi_isSome (s : CalcState) (e : Event) :
    ((step s e).bmi).isSome =
      (s.bmi.isSome ||
        (match e with
          | .submit => bothValid s
          | .edit _ _ => false)) := by
  cases e with
  | edit f v =>
      obtain ⟨hb, _, _⟩ := handleInputChange_parts s f v
      simp [step, hb]
  | submit =>
      simp only [step]
      cases hbv : bothValid s with
      | false =>
          have hv : ((validateField .height s.height).isSome ||
              (validateField .weight s.weight).isSome) = true := by
            rw [bothValid_eq] at hbv
            cases hx : ((validateField .height s.height).isSome ||
                (validateField .weight s.weight).isSome)
            · rw [hx] at hbv; cases hbv
            · rfl
          rw [calculateBMI_invalid hv]
          simp
      | true =>
          rw [bothValid_eq] at hbv
          have hx : ((validateField .height s.height).isSome ||
              (validateField .weight s.weight).isSome) = false := by
            cases hx : ((validateField .height s.height).isSome ||
                (validateField .weight s.weight).isSome)
            · rfl
            · rw [hx] at hbv; cases hbv
          rw [Bool.or_eq_false_iff] at hx
          obtain ⟨hxh, hxw⟩ := hx
          have hh : validateField .height s.height = none := by
            cases ho : validateField .height s.height
            · rfl
            · rw [ho] at hxh; cases hxh
          have hw : validateField .weight s.weight = none := by
            cases ho : validateField .weight s.weight
            · rfl
            · rw [ho] at hxw; cases hxw
          obtain ⟨h, hph, h1, h2⟩ := validateField_height_none.mp hh
          obtain ⟨w, hpw, h3, h4⟩ := validateField_weight_none.mp hw
          rw [calculateBMI_valid hph hpw h1 h2 h3 h4]
          simp

/-- Along any run, `bmi` is present iff it was present at the start or some
submission en route had both fields valid. -/
theorem foldl_bmi_isSome (es : List Event) : ∀ s : CalcState,
    ((es.foldl step s).bmi).isSome = (s.bmi.isSome || successDuring s es) := by
  induction es with
  | nil =>
      intro s
      simp [successDuring]
  | cons e es ih =>
      intro s
      rw [List.foldl_cons, ih (step s e), step_bmi_isSome]
      cases e <;> simp [successDuring, Bool.or_assoc]

/-- On nonnegative values - all scores the component can compute - the
`toFixed` rounding is round-half-away-from-zero. -/
theorem roundTo1_eq_roundHalfAway1 {q : ℚ} (h : 0 ≤ q) : roundTo1 q = roundHalfAway1 q := by
  unfold roundTo1 roundHalfAway1
  rw [if_pos h]

/-- In every reachable state that holds a result, the stored category string
is one of the four strings the source ever passes to `setCategory`. -/
theorem reachable_category {s : CalcState} (hr : Reachable s) :
    (s.bmi).isSome = true →
    (s.category = "Underweight" ∨ s.category = "Normal weight" ∨
     s.category = "Overweight" ∨ s.category = "Obese") := by
  induction hr with
  | init =>
      intro hb
      simp [initialState] at hb
  | edit f v hr ih =>
      intro hb
      obtain ⟨hbmi, hcat, _⟩ := handleInputChange_parts _ f v
      rw [hcat]
      exact ih (by rw [hbmi] at hb; exact hb)
  | submit hr ih =>
      intro hb
      rcases calculateBMI_cases _ with ⟨hbmi, hcat⟩ | ⟨q, _, hbmi, hcat⟩
      · rw [hcat]
        exact ih (by rw [hbmi] at hb; exact hb)
      · rw [hcat, categoryFor_eq_bandLabel]
        cases bandOf q <;> simp [bandLabel]

/-! ### Claim theorems -/

/-- Claim C3, counterexample: submitting the valid pair (170, 70) produces a
result whose stored category is the string "Normal weight", which is not one
of the four spec names `Underweight | Normal | Overweight | Obese`: the
middle band's code name differs from the spec name `Normal`. -/
theorem C3_counterexample :
    ((calculateBMI { initialState with height := "170", weight := "70" }).bmi).isSome = true ∧
    (calculateBMI { initialState with height := "170", weight := "70" }).category
      = "Normal weight" ∧
    ¬((calculateBMI { initialState with height := "170", weight := "70" }).category
        = "Underweight" ∨
      (calculateBMI { initialState with height := "170", weight := "70" }).category = "Normal" ∨
      (calculateBMI { initialState with height := "170", weight := "70" }).category
        = "Overweight" ∨
      (calculateBMI { initialState with height := "170", weight := "70" }).category = "Obese") := by
  decide

/-- Claim C3 (amended): whenever an `EvaluationResult` exists in a reachable
state, the stored category is exactly one of `Underweight`, `Normal weight`,
`Overweight`, `Obese` (the 18.5 ≤ score < 25 band is labelled
"Normal weight", not "Normal"), and the four bands are mutually exclusive
and exhaustive over every score. -/
theorem C3_category_names {s : CalcState} (hr : Reachable s) (hb : (s.bmi).isSome = true) :
    (s.category = "Underweight" ∨ s.category = "Normal weight" ∨
     s.category = "Overweight" ∨ s.category = "Obese") ∧
    (∀ q : ℚ, (bandOf q = .Underweight ↔ q < 18.5) ∧
      (bandOf q = .Normal ↔ 18.5 ≤ q ∧ q < 25) ∧
      (bandOf q = .Overweight ↔ 25 ≤ q ∧ q < 30) ∧
      (bandOf q = .Obese ↔ 30 ≤ q)) :=
  ⟨reachable_category hr hb, fun q => bandOf_iff q⟩

theorem C3_category_names_witness :
    ((calculateBMI (handleInputChange (handleInputChange initialState .height "170")
        .weight "70")).category = "Underweight" ∨
     (calculateBMI (handleInputChange (handleInputChange initialState .height "170")
        .weight "70")).category = "Normal weight" ∨
     (calculateBMI (handleInputChange (handleInputChange initialState .height "170")
        .weight "70")).category = "Overweight" ∨
     (calculateBMI (handleInputChange (handleInputChange initialState .height "170")
        .weight "70")).category = "Obese") ∧
    (∀ q : ℚ, (bandOf q = .Underweight ↔ q < 18.5) ∧
      (bandOf q = .Normal ↔ 18.5 ≤ q ∧ q < 25) ∧
      (bandOf q = .Overweight ↔ 25 ≤ q ∧ q < 30) ∧
      (bandOf q = .Obese ↔ 30 ≤ q)) :=
  C3_category_names
    (Reachable.submit (Reachable.edit .weight "70" (Reachable.edit .height "170" Reachable.init)))
    (by decide)

/-- Claim C4, counterexample: the text "Infinity" is not parseable as a
finite number, yet the validator returns the high-bound message for it, not
the required or valid-value message. -/
theorem C4_counterexample :
    (parseFloat "Infinity").isFinite = false ∧
    trimmedEmpty "Infinity" = false ∧
    validateField .height "Infinity" = some "Height seems too high (max 250cm)" ∧
    validateField .height "Infinity" ≠ some "Height is required" ∧
    validateField .height "Infinity" ≠ some "Please enter a valid height" := by
  decide

/-- Claim C4 (amended): for every field, every text that is empty or
whitespace-only, or not parseable at all (NaN), or parsed to -Infinity or to
a finite value ≤ 0, gets the required or valid-value message and never a
bound message; text parsing to +Infinity is the exception and gets the
high-bound message instead. -/
theorem C4_nonnumeric_validation (f : Field) (t : String)
    (h : trimmedEmpty t = true ∨ parseFloat t = .nan ∨ parseFloat t = .negInf ∨
      ∃ q : ℚ, parseFloat t = .num q ∧ q ≤ 0) :
    validateField f t = some (fieldCap f ++ " is required") ∨
    validateField f t = some ("Please enter a valid " ++ fieldName f) := by
  cases f
  case height =>
    rw [validateField_height_char]
    by_cases hb : trimmedEmpty t = true
    · rw [if_pos hb]
      left
      rfl
    · rw [if_neg hb]
      rcases h with h | hp | hp | ⟨q, hp, hq⟩
      · exact absurd h hb
      · rw [hp]; right; rfl
      · rw [hp]; right; rfl
      · rw [hp]
        dsimp only
        rw [if_pos hq]
        right
        rfl
  case weight =>
    rw [validateField_weight_char]
    by_cases hb : trimmedEmpty t = true
    · rw [if_pos hb]
      left
      rfl
    · rw [if_neg hb]
      rcases h with h | hp | hp | ⟨q, hp, hq⟩
      · exact absurd h hb
      · rw [hp]; right; rfl
      · rw [hp]; right; rfl
      · rw [hp]
        dsimp only
        rw [if_pos hq]
        right
        rfl

theorem C4_nonnumeric_validation_witness :
    (trimmedEmpty "abc" = true ∨ parseFloat "abc" = .nan ∨ parseFloat "abc" = .negInf ∨
      ∃ q : ℚ, parseFloat "abc" = .num q ∧ q ≤ 0) ∧
    (validateField .height "abc" = some (fieldCap .height ++ " is required") ∨
     validateField .height "abc" = some ("Please enter a valid " ++ fieldName .height)) :=
  ⟨Or.inr (Or.inl (by decide)),
   C4_nonnumeric_validation .height "abc" (Or.inr (Or.inl (by decide)))⟩

/-- Claim C5, counterexample: the text "-5" parses to -5 < 50, yet the
height validator returns the valid-value message (rule 2, value ≤ 0), not
the low-bound message the claim requires for every h < 50. -/
theorem C5_counterexample :
    parseFloat "-5" = .num (-5) ∧ (-5 : ℚ) < 50 ∧
    validateField .height "-5" = some "Please enter a valid height" ∧
    validateField .height "-5" ≠ some "Height seems too low (min 50cm)" := by
  decide

/-- Claim C5 (amended): for every numeric text input, the validator returns
no error iff the parsed value is inside the field's inclusive range; a
*positive* value below the range gets the low-bound message and a value
above the range gets the high-bound message (values ≤ 0 get the valid-value
message instead). -/
theorem C5_numeric_validation (f : Field) (t : String) (q : ℚ)
    (hp : parseFloat t = .num q) :
    (validateField f t = none ↔ lowBound f ≤ q ∧ q ≤ highBound f) ∧
    (0 < q → q < lowBound f → validateField f t = some (lowMsg f)) ∧
    (highBound f < q → validateField f t = some (highMsg f)) := by
  have hb := trimmedEmpty_false_of_num hp
  cases f
  case height =>
    rw [validateField_height_char, hb, hp]
    simp only [Bool.false_eq_true, if_false]
    dsimp only [lowBound, highBound, lowMsg, highMsg]
    refine ⟨⟨fun hnone => ?_, fun hin => ?_⟩, fun hpos hlt => ?_, fun hgt => ?_⟩
    · split_ifs at hnone with h1 h2 h3
      exact ⟨by linarith, by linarith⟩
    · obtain ⟨hlo, hhi⟩ := hin
      rw [if_neg (by linarith), if_neg (by linarith), if_neg (by linarith)]
    · rw [if_neg (by linarith), if_pos hlt]
    · rw [if_neg (by linarith), if_neg (by linarith), if_pos hgt]
  case weight =>
    rw [validateField_weight_char, hb, hp]
    simp only [Bool.false_eq_true, if_false]
    dsimp only [lowBound, highBound, lowMsg, highMsg]
    refine ⟨⟨fun hnone => ?_, fun hin => ?_⟩, fun hpos hlt => ?_, fun hgt => ?_⟩
    · split_ifs at hnone with h1 h2 h3
      exact ⟨by linarith, by linarith⟩
    · obtain ⟨hlo, hhi⟩ := hin
      rw [if_neg (by linarith), if_neg (by linarith), if_neg (by linarith)]
    · rw [if_neg (by linarith), if_pos hlt]
    · rw [if_neg (by linarith), if_neg (by linarith), if_pos hgt]

theorem C5_numeric_validation_witness :
    parseFloat "300" = .num 300 ∧
    (validateField .height "300" = none ↔
      lowBound .height ≤ (300 : ℚ) ∧ (300 : ℚ) ≤ highBound .height) ∧
    (highBound .height < (300 : ℚ) → validateField .height "300" = some (highMsg .height)) :=
  ⟨by decide, (C5_numeric_validation .height "300" 300 (by decide)).1,
    (C5_numeric_validation .height "300" 300 (by decide)).2.2⟩

/-- Claim C9: the scale position clamps the stored score to [10, 40] and maps
it linearly with 10 ↦ 0 and 40 ↦ 100, so every result lies in [0, 100]; in
particular positions 10 ↦ 0, 40 ↦ 100, 5 ↦ 0 (clamped) and 25 ↦ 50. -/
theorem C9_scale_position :
    (∀ b : ℚ, 0 ≤ getBmiScalePosition (some b) ∧ getBmiScalePosition (some b) ≤ 100) ∧
    (∀ b : ℚ, 10 ≤ b → b ≤ 40 → getBmiScalePosition (some b) = (b - 10) / 30 * 100) ∧
    getBmiScalePosition (some 10) = 0 ∧
    getBmiScalePosition (some 40) = 100 ∧
    getBmiScalePosition (some 5) = 0 ∧
    getBmiScalePosition (some 25) = 50 := by
  refine ⟨fun b => ?_, fun b h10 h40 => ?_, by decide, by decide, by decide, by decide⟩
  · simp only [getBmiScalePosition]
    have hlo : (10 : ℚ) ≤ max 10 (min b 40) := le_max_left _ _
    have hhi : max 10 (min b 40) ≤ 40 := max_le (by norm_num) (min_le_right b 40)
    constructor
    · exact mul_nonneg (div_nonneg (by linarith) (by norm_num)) (by norm_num)
    · rw [div_mul_eq_mul_div, div_le_iff₀ (by norm_num : (0 : ℚ) < 30)]
      linarith
  · simp only [getBmiScalePosition]
    rw [min_eq_left h40, max_eq_right h10]

theorem C9_scale_position_witness :
    (10 : ℚ) ≤ 25 ∧ (25 : ℚ) ≤ 40 ∧
    getBmiScalePosition (some 25) = ((25 : ℚ) - 10) / 30 * 100 :=
  ⟨by norm_num, by norm_num, C9_scale_position.2.1 25 (by norm_num) (by norm_num)⟩

/-- Claim C1: for every valid pair of inputs parsing to h ∈ [50, 250] and
w ∈ [20, 500], the stored score is exactly round(w / (h/100)², 1), rounded
half-away-from-zero at the tenths digit. -/
theorem C1_score_roundtrip (s : CalcState) (h w : ℚ)
    (hph : parseFloat s.height = .num h) (hpw : parseFloat s.weight = .num w)
    (h1 : 50 ≤ h) (h2 : h ≤ 250) (h3 : 20 ≤ w) (h4 : w ≤ 500) :
    (calculateBMI s).bmi = some (roundHalfAway1 (w / (h / 100) ^ 2)) := by
  rw [calculateBMI_valid hph hpw h1 h2 h3 h4, pow_two]
  have hpos : 0 ≤ w / (h / 100 * (h / 100)) :=
    div_nonneg (by linarith) (mul_nonneg (by linarith) (by linarith))
  exact congrArg some (roundTo1_eq_roundHalfAway1 hpos)

theorem C1_score_roundtrip_witness :
    (calculateBMI { initialState with height := "170", weight := "70" }).bmi
      = some (roundHalfAway1 ((70 : ℚ) / ((170 : ℚ) / 100) ^ 2)) :=
  C1_score_roundtrip { initialState with height := "170", weight := "70" } 170 70
    (by decide) (by decide) (by norm_num) (by norm_num) (by norm_num) (by norm_num)

/-- Claim C2: for every validated pair, the stored category is the label of
the band of the *unrounded* score w / (h/100)², where the bands are
Underweight iff score < 18.5, Normal iff 18.5 ≤ score < 25, Overweight iff
25 ≤ score < 30, Obese iff score ≥ 30; in particular the inputs
h = 170, w = 71.825 land in the Normal band with rounded display 24.9. -/
theorem C2_classification_unrounded (s : CalcState) (h w : ℚ)
    (hph : parseFloat s.height = .num h) (hpw : parseFloat s.weight = .num w)
    (h1 : 50 ≤ h) (h2 : h ≤ 250) (h3 : 20 ≤ w) (h4 : w ≤ 500) :
    ((calculateBMI s).category = bandLabel (bandOf (w / (h / 100) ^ 2)) ∧
     (calculateBMI s).bmi = some (roundTo1 (w / (h / 100) ^ 2))) ∧
    (∀ q : ℚ, (bandOf q = .Underweight ↔ q < 18.5) ∧
      (bandOf q = .Normal ↔ 18.5 ≤ q ∧ q < 25) ∧
      (bandOf q = .Overweight ↔ 25 ≤ q ∧ q < 30) ∧
      (bandOf q = .Obese ↔ 30 ≤ q)) ∧
    bandOf ((71825 / 1000 : ℚ) / ((170 : ℚ) / 100) ^ 2) = .Normal ∧
    (calculateBMI { initialState with height := "170", weight := "71.825" }).bmi
      = some (249 / 10) ∧
    (calculateBMI { initialState with height := "170", weight := "71.825" }).category
      = "Normal weight" := by
  refine ⟨?_, fun q => bandOf_iff q, by decide, by decide, by decide⟩
  rw [calculateBMI_valid hph hpw h1 h2 h3 h4, pow_two]
  exact ⟨categoryFor_eq_bandLabel _, rfl⟩

theorem C2_classification_unrounded_witness :
    (calculateBMI { initialState with height := "170", weight := "71.825" }).category
      = bandLabel (bandOf ((71825 / 1000 : ℚ) / ((170 : ℚ) / 100) ^ 2)) ∧
    (calculateBMI { initialState with height := "170", weight := "71.825" }).bmi
      = some (roundTo1 ((71825 / 1000 : ℚ) / ((170 : ℚ) / 100) ^ 2)) :=
  (C2_classification_unrounded { initialState with height := "170", weight := "71.825" }
    170 (71825 / 1000) (by decide) (by decide) (by norm_num) (by norm_num) (by norm_num)
    (by norm_num)).1

/-- Claim C8: the submit handler sets the general (computation) error iff
both fields validate and the computed score is not finite; and for every
pair of validated inputs the computed score is finite and not NaN, so the
defensive branch is unreachable and the general error stays clear. -/
theorem C8_defensive_unreachable :
    (∀ s : CalcState, ((calculateBMI s).errors.general).isSome = true ↔
      (validateField .height s.height = none ∧ validateField .weight s.weight = none ∧
       (computeScore (parseFloat s.height) (parseFloat s.weight)).isFinite = false)) ∧
    (∀ s : CalcState, validateField .height s.height = none →
      validateField .weight s.weight = none →
      (computeScore (parseFloat s.height) (parseFloat s.weight)).isFinite = true ∧
      (computeScore (parseFloat s.height) (parseFloat s.weight)).isNaN = false ∧
      (calculateBMI s).errors.general = none) := by
  have key : ∀ s : CalcState, validateField .height s.height = none →
      validateField .weight s.weight = none →
      ∃ r : ℚ, computeScore (parseFloat s.height) (parseFloat s.weight) = .num r ∧
        calculateBMI s = { s with submitted := true,
                                  errors := { height := none, weight := none, general := none },
                                  bmi := some (roundTo1 r),
                                  category := categoryFor (.num r) } := by
    intro s hh hw
    obtain ⟨h, hph, h1, h2⟩ := validateField_height_none.mp hh
    obtain ⟨w, hpw, h3, h4⟩ := validateField_weight_none.mp hw
    refine ⟨w / (h / 100 * (h / 100)), ?_, calculateBMI_valid hph hpw h1 h2 h3 h4⟩
    rw [hph, hpw]
    exact computeScore_num (by linarith)
  constructor
  · intro s
    constructor
    · intro hg
      by_cases hh : validateField .height s.height = none
      · by_cases hw : validateField .weight s.weight = none
        · obtain ⟨r, hr, heq⟩ := key s hh hw
          rw [heq] at hg
          simp at hg
        · have hv : ((validateField .height s.height).isSome ||
              (validateField .weight s.weight).isSome) = true := by
            cases ho : validateField .weight s.weight with
            | none => exact absurd ho hw
            | some v => simp [ho]
          rw [calculateBMI_invalid hv] at hg
          simp at hg
      · have hv : ((validateField .height s.height).isSome ||
            (validateField .weight s.weight).isSome) = true := by
          cases ho : validateField .height s.height with
          | none => exact absurd ho hh
          | some v => simp [ho]
        rw [calculateBMI_invalid hv] at hg
        simp at hg
    · rintro ⟨hh, hw, hfin⟩
      obtain ⟨r, hr, heq⟩ := key s hh hw
      rw [hr] at hfin
      cases hfin
  · intro s hh hw
    obtain ⟨r, hr, heq⟩ := key s hh hw
    refine ⟨by rw [hr]; rfl, by rw [hr]; rfl, by rw [heq]⟩

theorem C8_defensive_unreachable_witness :
    (computeScore (parseFloat "170") (parseFloat "70")).isFinite = true ∧
    (computeScore (parseFloat "170") (parseFloat "70")).isNaN = false ∧
    (calculateBMI { initialState with height := "170", weight := "70" }).errors.general
      = none :=
  C8_defensive_unreachable.2 { initialState with height := "170", weight := "70" }
    (by decide) (by decide)

/-- Claim C10: every submission replaces the error record with one whose
general entry is `none` before the validation outcome matters, so a failed
re-submission clears a previously displayed general error while the stale
result (score and category) is retained; and a fully successful submission
also leaves the general error clear. -/
theorem C10_general_cleared :
    (∀ s : CalcState,
      ((validateField .height s.height).isSome || (validateField .weight s.weight).isSome)
        = true →
      (calculateBMI s).errors.general = none ∧ (calculateBMI s).bmi = s.bmi ∧
      (calculateBMI s).category = s.category) ∧
    (∀ s : CalcState,
      validateField .height s.height = none → validateField .weight s.weight = none →
      (calculateBMI s).errors.general = none) := by
  constructor
  · intro s hv
    rw [calculateBMI_invalid hv]
    exact ⟨rfl, rfl, rfl⟩
  · intro s hh hw
    obtain ⟨h, hph, h1, h2⟩ := validateField_height_none.mp hh
    obtain ⟨w, hpw, h3, h4⟩ := validateField_weight_none.mp hw
    rw [calculateBMI_valid hph hpw h1 h2 h3 h4]

theorem C10_general_cleared_witness :
    (calculateBMI
        { height := "170", weight := "", bmi := some (121 / 5),
          category := "Normal weight",
          errors :=
            { height := none, weight := none,
              general :=
                some "An error occurred during calculation. Please check your inputs." },
          submitted := true }).errors.general = none ∧
    (calculateBMI
        { height := "170", weight := "", bmi := some (121 / 5),
          category := "Normal weight",
          errors :=
            { height := none, weight := none,
              general :=
                some "An error occurred during calculation. Please check your inputs." },
          submitted := true }).bmi = some (121 / 5) ∧
    (calculateBMI
        { height := "170", weight := "", bmi := some (121 / 5),
          category := "Normal weight",
          errors :=
            { height := none, weight := none,
              general :=
                some "An error occurred during calculation. Please check your inputs." },
          submitted := true }).category = "Normal weight" :=
  C10_general_cleared.1
    { height := "170", weight := "", bmi := some (121 / 5), category := "Normal weight",
      errors :=
        { height := none, weight := none,
          general :=
            some "An error occurred during calculation. Please check your inputs." },
      submitted := true }
    (by decide)

/-- Claim C6: a submission with a failing field keeps the previous result
(score and category) completely unchanged while storing the two field
validation results; a result is present iff some earlier submission had both
fields valid; and once present, a result survives every further event. -/
theorem C6_result_retention :
    (∀ s : CalcState,
      ((validateField .height s.height).isSome || (validateField .weight s.weight).isSome)
        = true →
      (calculateBMI s).bmi = s.bmi ∧ (calculateBMI s).category = s.category ∧
      (calculateBMI s).errors.height = validateField .height s.height ∧
      (calculateBMI s).errors.weight = validateField .weight s.weight) ∧
    (∀ es : List Event, ((runEvents es).bmi).isSome = hadSuccess es) ∧
    (∀ (s : CalcState) (e : Event), (s.bmi).isSome = true → ((step s e).bmi).isSome = true) := by
  refine ⟨fun s hv => ?_, fun es => ?_, fun s e hb => ?_⟩
  · rw [calculateBMI_invalid hv]
    exact ⟨rfl, rfl, rfl, rfl⟩
  · unfold runEvents hadSuccess
    rw [foldl_bmi_isSome]
    rfl
  · rw [step_bmi_isSome, hb]
    rfl

theorem C6_result_retention_witness :
    (calculateBMI (handleInputChange
        (calculateBMI { initialState with height := "170", weight := "70" })
        .weight "-5")).bmi = some (121 / 5) ∧
    (calculateBMI (handleInputChange
        (calculateBMI { initialState with height := "170", weight := "70" })
        .weight "-5")).category = "Normal weight" ∧
    (calculateBMI (handleInputChange
        (calculateBMI { initialState with height := "170", weight := "70" })
        .weight "-5")).errors.weight = some "Please enter a valid weight" := by
  have h := C6_result_retention.1
    (handleInputChange (calculateBMI { initialState with height := "170", weight := "70" })
      .weight "-5")
    (by decide)
  exact ⟨h.1.trans (by decide), h.2.1.trans (by decide), h.2.2.2.trans (by decide)⟩

/-- Claim C7: the form starts pristine; every submission marks it submitted
regardless of validation outcome; no event ever clears the flag; while
pristine an edit only stores that field's raw text and leaves the error
record untouched; while submitted an edit re-runs that field's validator and
stores its result immediately, leaving the result untouched. -/
theorem C7_submission_transition :
    initialState.submitted = false ∧
    (∀ s : CalcState, (calculateBMI s).submitted = true) ∧
    (∀ (s : CalcState) (e : Event), s.submitted = true → (step s e).submitted = true) ∧
    (∀ (s : CalcState) (f : Field) (v : String), s.submitted = false →
      handleInputChange s f v = setFieldText s f v ∧
      (handleInputChange s f v).errors = s.errors) ∧
    (∀ (s : CalcState) (f : Field) (v : String), s.submitted = true →
      (handleInputChange s f v).errors = setFieldError s.errors f (validateField f v) ∧
      (handleInputChange s f v).bmi = s.bmi ∧
      (handleInputChange s f v).category = s.category) := by
  refine ⟨rfl, calculateBMI_submitted, fun s e hs => ?_, fun s f v hs => ?_, fun s f v hs => ?_⟩
  · cases e with
    | edit f v => exact ((handleInputChange_parts s f v).2.2).trans hs
    | submit => exact calculateBMI_submitted s
  · refine ⟨handleInputChange_of_not_submitted f v hs, ?_⟩
    rw [handleInputChange_of_not_submitted f v hs]
    exact (setFieldText_parts s f v).2.2.1
  · rw [handleInputChange_of_submitted f v hs]
    exact ⟨rfl, (setFieldText_parts s f v).1, (setFieldText_parts s f v).2.1⟩

theorem C7_submission_transition_witness :
    (calculateBMI initialState).submitted = true ∧
    (step (calculateBMI initialState) .submit).submitted = true ∧
    (handleInputChange (calculateBMI initialState) .height "abc").errors =
      setFieldError (calculateBMI initialState).errors .height (validateField .height "abc") ∧
    handleInputChange initialState .height "x" = setFieldText initialState .height "x" :=
  ⟨C7_submission_transition.2.1 initialState,
   C7_submission_transition.2.2.1 (calculateBMI initialState) .submit (by decide),
   (C7_submission_transition.2.2.2.2 (calculateBMI initialState) .height "abc" (by decide)).1,
   (C7_submission_transition.2.2.2.1 initialState .height "x" (by decide)).1⟩

end BmiCalc
